import Mathlib

/-!
Shallow embedding of `src/satosa/account_linking.py` (class
`AccountLinkingModule`): the account-linking step of the SATOSA proxy.

The module queries an external account-linking service with a signed JWS,
interprets the HTTP answer (200 = linked, 404 = pending ticket, anything
else or a connection error = fatal authentication error), persists the
in-flight identity in the per-session state store across the approval
redirect, and resumes on the callback endpoint.

Collaborator code that is part of the SATOSA repository but not under
`src/` (satosa.state.State, satosa.internal_data.InternalResponse,
satosa.response.Redirect, the jwkest JWS signer) is modelled from the
design document; each such definition carries a doc comment starting
`Modelled from the spec:`.
-/

namespace AccountLinking

/-- Modelled from the spec: the authentication info of an identity; the
module only reads `internal_response.auth_info.issuer`
(satosa.internal_data, not under src/). -/
structure AuthInfo where
  issuer : String
deriving DecidableEq, Repr

/-- Modelled from the spec: an Identity is
`issuer, subjectId, attributes: name -> ordered sequence of values`
(satosa.internal_data.InternalResponse, not under src/). -/
structure InternalResponse where
  auth_info : AuthInfo
  user_id : String
  attributes : List (String × List String)
deriving DecidableEq, Repr

/-- Modelled from the spec: `get_user_id` returns the subjectId. -/
def InternalResponse.get_user_id (ir : InternalResponse) : String :=
  ir.user_id

/-- Modelled from the spec: `set_user_id` replaces the subjectId and
nothing else ("Mutated only by replacing subjectId with the canonical id
once linking resolves"). -/
def InternalResponse.set_user_id (ir : InternalResponse) (uid : String) : InternalResponse :=
  { ir with user_id := uid }

/-- Modelled from the spec: the serialized (dict) form of an Identity,
as produced by `InternalResponse.to_dict`. -/
structure IRDict where
  d_issuer : String
  d_user_id : String
  d_attributes : List (String × List String)
deriving DecidableEq, Repr

/-- Modelled from the spec: serialize an Identity ("PendingLinkState: a
serialization of Identity"). -/
def InternalResponse.to_dict (ir : InternalResponse) : IRDict :=
  { d_issuer := ir.auth_info.issuer
    d_user_id := ir.user_id
    d_attributes := ir.attributes }

/-- Modelled from the spec: reconstruct the Identity from its serialized
form (`InternalResponse.from_dict`). -/
def InternalResponse.from_dict (d : IRDict) : InternalResponse :=
  { auth_info := { issuer := d.d_issuer }
    user_id := d.d_user_id
    attributes := d.d_attributes }

/-- The per-session state store, "an opaque key-value store with
add/get/remove semantics"; entries map state keys to serialized
identities (the only values this module ever stores). -/
def SessionState : Type := List (String × IRDict)

instance : DecidableEq SessionState := by
  unfold SessionState
  infer_instance

/-- `STATE_KEY = "ACCOUNT_LINKING"` (account_linking.py line 18). -/
def STATE_KEY : String := "ACCOUNT_LINKING"

/-- All entries under key `k` removed. -/
def eraseKey (st : SessionState) (k : String) : SessionState :=
  List.filter (fun p => !(p.1 == k)) st

/-- Modelled from the spec: `state.get(key)` of the opaque key-value
store (satosa.state.State, not under src/); a missing key is a KeyError,
matching the dict semantics evidenced by the `except KeyError` around
`state.remove` in manage_al. -/
def store_get (st : SessionState) (k : String) : Except Unit IRDict :=
  match List.lookup k st with
  | some v => Except.ok v
  | none => Except.error ()

/-- Modelled from the spec: `state.add(key, value)` writes the value
under the key, "overwriting any prior value". -/
def store_add (st : SessionState) (k : String) (v : IRDict) : SessionState :=
  (k, v) :: eraseKey st k

/-- Modelled from the spec: `state.remove(key)` deletes the key, raising
KeyError when it is absent (the code in manage_al guards it with
`try ... except KeyError: pass`). -/
def store_remove (st : SessionState) (k : String) : Except Unit SessionState :=
  match List.lookup k st with
  | some _ => Except.ok (eraseKey st k)
  | none => Except.error ()

/-- The `ACCOUNT_LINKING` section of the proxy configuration
(`api_url`, `redirect_url`, `sign_key`, optional `enable`). -/
structure ALSection where
  enable : Option Bool
  api_url : String
  redirect_url : String
  sign_key : String
deriving DecidableEq, Repr

/-- The proxy configuration as the module reads it: `config["BASE"]` and
the optional `config["ACCOUNT_LINKING"]` section. -/
structure SATOSAConfig where
  base : String
  account_linking : Option ALSection
deriving DecidableEq, Repr

/-- The fields `__init__` stores on `self` (account_linking.py lines
35-47). `endpoint` is always the literal "/handle_account_linking", kept
as the global `endpoint_path` below. -/
structure AccountLinkingModule where
  enabled : Bool
  proxy_base : String
  api_url : String
  redirect_url : String
  sign_key : String
deriving DecidableEq, Repr

/-- `self.endpoint = "/handle_account_linking"` (line 44). -/
def endpoint_path : String := "/handle_account_linking"

/-- `__init__` (lines 37-44):
`enabled = "ACCOUNT_LINKING" in config and ("enable" not in section or section["enable"])`;
when enabled, the URLs and the signing key are taken from the config.
When disabled the Python object never sets those attributes; they are
modelled as empty strings and proved never read (claim C5). -/
def AccountLinkingModule.ofConfig (config : SATOSAConfig) : AccountLinkingModule :=
  match config.account_linking with
  | none =>
    { enabled := false, proxy_base := "", api_url := "", redirect_url := "", sign_key := "" }
  | some sec =>
    let en := match sec.enable with
      | none => true
      | some b => b
    if en then
      { enabled := true
        proxy_base := config.base
        api_url := sec.api_url
        redirect_url := sec.redirect_url
        sign_key := sec.sign_key }
    else
      { enabled := false, proxy_base := "", api_url := "", redirect_url := "", sign_key := "" }

/-- One lowercase hexadecimal digit. -/
def hexDigit (n : Nat) : Char :=
  if n < 10 then Char.ofNat (48 + n) else Char.ofNat (87 + n)

/-- Four lowercase hexadecimal digits, as in a JSON \u escape. -/
def hex4 (n : Nat) : String :=
  String.mk [hexDigit (n / 4096 % 16), hexDigit (n / 256 % 16), hexDigit (n / 16 % 16), hexDigit (n % 16)]

/-- Modelled from the spec: the escaping of one character inside a JSON
string as Python json.dumps (ensure_ascii=True) performs it. -/
def json_escape_char (c : Char) : String :=
  if c = Char.ofNat 34 then String.mk [Char.ofNat 92, Char.ofNat 34]
  else if c = Char.ofNat 92 then String.mk [Char.ofNat 92, Char.ofNat 92]
  else if c.toNat = 10 then String.mk [Char.ofNat 92, Char.ofNat 110]
  else if c.toNat = 13 then String.mk [Char.ofNat 92, Char.ofNat 114]
  else if c.toNat = 9 then String.mk [Char.ofNat 92, Char.ofNat 116]
  else if c.toNat = 8 then String.mk [Char.ofNat 92, Char.ofNat 98]
  else if c.toNat = 12 then String.mk [Char.ofNat 92, Char.ofNat 102]
  else if c.toNat < 32 then String.mk [Char.ofNat 92, Char.ofNat 117] ++ hex4 c.toNat
  else if c.toNat ≤ 126 then String.mk [c]
  else if c.toNat ≤ 65535 then String.mk [Char.ofNat 92, Char.ofNat 117] ++ hex4 c.toNat
  else
    String.mk [Char.ofNat 92, Char.ofNat 117] ++ hex4 (55296 + (c.toNat - 65536) / 1024) ++
      String.mk [Char.ofNat 92, Char.ofNat 117] ++ hex4 (56320 + (c.toNat - 65536) % 1024)

/-- A JSON string body: every character escaped. -/
def json_escape (s : String) : String :=
  String.join (s.toList.map json_escape_char)

/-- A double quote as a string. -/
def dq : String := String.mk [Char.ofNat 34]

/-- Modelled from the spec: Python `json.dumps` on a dict of string
values, with the default separators and the insertion order of the keys
preserved. -/
def json_dumps (pairs : List (String × String)) : String :=
  "\x7b" ++
    String.intercalate ", "
      (pairs.map (fun p => dq ++ json_escape p.1 ++ dq ++ ": " ++ dq ++ json_escape p.2 ++ dq)) ++
    "\x7d"

/-- Modelled from the spec: the Signer "produces a compact serialization
combining payload and signature" (jwkest `JWS(payload,
alg="RS256").sign_compact([key])`, an external library); the payload is
recoverable from the middle segment, the third segment stands for the
signature made with the key. -/
def sign_compact (key : String) (payload : String) : String :=
  "RS256." ++ payload ++ "." ++ key

/-- An answer of the external account-linking service to one HTTP GET:
either a response with a status code and a body text, or a connection
error (`requests.ConnectionError`). -/
inductive HttpAnswer where
  | resp (status : Nat) (text : String)
  | connError
deriving DecidableEq, Repr

/-- The errors this flow can surface: `SATOSAAuthenticationError(msg)`
raised by the module itself, or a `KeyError` escaping from the session
store. -/
inductive FlowError where
  | keyError
  | satosaAuthError (msg : String)
deriving DecidableEq, Repr

/-- What one HTTP turn of the flow produces when it does not raise:
either the continuation callback was invoked with an identity
(`self.callback_func(context, internal_response)`), or a `Redirect(url)`
was returned. -/
inductive ALResult where
  | callbackInvoked (ir : InternalResponse)
  | redirect (url : String)
deriving DecidableEq, Repr

/-- An apostrophe-quoted string, as in the Python message
`"Got status code '%s' from account linking service"`. -/
def quoteSQ (s : String) : String :=
  String.singleton (Char.ofNat 39) ++ s ++ String.singleton (Char.ofNat 39)

/-- The message of the unexpected-status error (line 147). -/
def status_code_msg (status : Nat) : String :=
  "Got status code " ++ quoteSQ (toString status) ++ " from account linking service"

/-- The message of the connection error (line 142). -/
def conn_error_msg : String :=
  "Could not connect to account linking service"

/-- The GET request `_get_uuid` issues (lines 131-139): the payload dict
`idp, id, redirect_endpoint` in that order, `json.dumps`-serialized,
compact-signed, and appended to `{api_url}/get_id?jwt=`. The redirect
endpoint is `"%s/account_linking%s" % (self.proxy_base, self.endpoint)`. -/
def outbound_request (m : AccountLinkingModule) (issuer id : String) : String :=
  let data := json_dumps
    [("idp", issuer), ("id", id),
     ("redirect_endpoint", m.proxy_base ++ "/account_linking" ++ endpoint_path)]
  let jws := sign_compact m.sign_key data
  m.api_url ++ "/get_id?jwt=" ++ jws

/-- `_get_uuid` (lines 114-151): issue the signed GET; a connection
error raises `SATOSAAuthenticationError` with the connection message; a
status outside `[200, 404]` raises it with the status message; otherwise
return `(status_code, text)`. The external service is passed in as the
function `svc` from request URL to answer. -/
def get_uuid (m : AccountLinkingModule) (svc : String → HttpAnswer) (issuer id : String) :
    Except FlowError (Nat × String) :=
  match svc (outbound_request m issuer id) with
  | HttpAnswer.connError => Except.error (FlowError.satosaAuthError conn_error_msg)
  | HttpAnswer.resp status text =>
    if status ∈ ([200, 404] : List Nat) then Except.ok (status, text)
    else Except.error (FlowError.satosaAuthError (status_code_msg status))

/-- Lines 87-90 of manage_al:
`try: context.state.remove(STATE_KEY) except KeyError: pass`. -/
def clear_pending (st : SessionState) : SessionState :=
  match store_remove st STATE_KEY with
  | Except.ok s => s
  | Except.error _ => st

/-- `_approve_new_id` (lines 95-112): save the serialized identity under
STATE_KEY and return `Redirect("%s/%s" % (self.redirect_url, ticket))`. -/
def approve_new_id (m : AccountLinkingModule) (st : SessionState) (ir : InternalResponse)
    (ticket : String) : Except FlowError ALResult × SessionState :=
  (Except.ok (ALResult.redirect (m.redirect_url ++ "/" ++ ticket)),
   store_add st STATE_KEY ir.to_dict)

/-- `manage_al` (lines 63-93). The pair returned is (outcome or raised
error, session state afterwards): a raised Python exception propagates
while mutations already made to the external session store persist, so
the state component is meaningful on the error paths too. -/
def manage_al (m : AccountLinkingModule) (svc : String → HttpAnswer) (st : SessionState)
    (ir : InternalResponse) : Except FlowError ALResult × SessionState :=
  if m.enabled = false then
    (Except.ok (ALResult.callbackInvoked ir), st)
  else
    match get_uuid m svc ir.auth_info.issuer ir.get_user_id with
    | Except.error e => (Except.error e, st)
    | Except.ok (status_code, message) =>
      if status_code = 200 then
        (Except.ok (ALResult.callbackInvoked (ir.set_user_id message)), clear_pending st)
      else
        approve_new_id m st ir message

/-- `_handle_al_response` (lines 49-61):
`saved_state = context.state.get(STATE_KEY)` (a KeyError from the store
propagates unhandled), reconstruct the identity with
`InternalResponse.from_dict`, and delegate to `manage_al`. -/
def handle_al_response (m : AccountLinkingModule) (svc : String → HttpAnswer)
    (st : SessionState) : Except FlowError ALResult × SessionState :=
  match store_get st STATE_KEY with
  | Except.error _ => (Except.error FlowError.keyError, st)
  | Except.ok saved => manage_al m svc st (InternalResponse.from_dict saved)

/-- The outbound HTTP call exactly as section 6 of the design document
words it: `GET {serviceApiUrl}/get_id?jwt={compact-signed-JWS}` where
the signed payload is the JSON object
`idp: issuer, id: subjectId, redirect_endpoint:
{proxyBaseUrl}/account_linking/handle_account_linking`. -/
def spec_outbound_request (m : AccountLinkingModule) (issuer subjectId : String) : String :=
  m.api_url ++ "/get_id?jwt=" ++
    sign_compact m.sign_key
      (json_dumps
        [("idp", issuer), ("id", subjectId),
         ("redirect_endpoint", m.proxy_base ++ "/account_linking/handle_account_linking")])

/-- The authentication-error message carried on each failing answer,
"the originating reason": the connection message when the service is
unreachable, the status message for an unexpected status code. -/
def failure_msg : HttpAnswer → String
  | HttpAnswer.connError => conn_error_msg
  | HttpAnswer.resp status _ => status_code_msg status

/-! ### Helper lemmas about the session store -/

theorem lookup_cons_eq (a k : String) (v : IRDict) (t : List (String × IRDict)) :
    List.lookup a ((k, v) :: t) = if a = k then some v else List.lookup a t := by
  by_cases h : a = k
  · subst h
    simp [List.lookup]
  · have hb : (a == k) = false := beq_eq_false_iff_ne.mpr h
    simp [List.lookup, hb, h]

theorem lookup_eraseKey_self (st : SessionState) (k : String) :
    List.lookup k (eraseKey st k) = none := by
  induction st with
  | nil => rfl
  | cons p t ih =>
    obtain ⟨k1, v1⟩ := p
    by_cases h : k1 = k
    · simpa [eraseKey, List.filter_cons, h] using ih
    · have h2 : ¬ (k = k1) := fun e => h e.symm
      simpa [eraseKey, List.filter_cons, h, lookup_cons_eq, h2] using ih

theorem eraseKey_of_lookup_none (st : SessionState) (k : String)
    (h : List.lookup k st = none) : eraseKey st k = st := by
  induction st with
  | nil => rfl
  | cons p t ih =>
    obtain ⟨k1, v1⟩ := p
    rw [lookup_cons_eq] at h
    by_cases hk : k = k1
    · rw [if_pos hk] at h
      exact Option.noConfusion h
    · rw [if_neg hk] at h
      have h1 : ¬ (k1 = k) := fun e => hk e.symm
      have hb : ((k1, v1).1 == k) = false := beq_eq_false_iff_ne.mpr h1
      simp only [eraseKey, List.filter_cons, hb, Bool.not_false, if_true]
      have := ih h
      unfold eraseKey at this
      rw [this]

theorem clear_pending_eq_eraseKey (st : SessionState) :
    clear_pending st = eraseKey st STATE_KEY := by
  unfold clear_pending store_remove
  cases h : List.lookup STATE_KEY st with
  | none => exact (eraseKey_of_lookup_none st STATE_KEY h).symm
  | some v => rfl

theorem lookup_clear_pending (st : SessionState) :
    List.lookup STATE_KEY (clear_pending st) = none := by
  rw [clear_pending_eq_eraseKey]
  exact lookup_eraseKey_self st STATE_KEY

theorem lookup_store_add_self (st : SessionState) (k : String) (v : IRDict) :
    List.lookup k (store_add st k v) = some v := by
  simp [store_add, lookup_cons_eq]

theorem eraseKey_store_add_self (st : SessionState) (k : String) (v : IRDict) :
    eraseKey (store_add st k v) k = eraseKey st k := by
  simp only [store_add, eraseKey, List.filter_cons]
  have h : ((k, v).1 == k) = true := by simp
  simp [h, List.filter_filter]

theorem from_dict_to_dict (ir : InternalResponse) :
    InternalResponse.from_dict ir.to_dict = ir := rfl

/-! ### Helper lemmas about the flow functions -/

theorem handle_eq_of_lookup (m : AccountLinkingModule) (svc : String → HttpAnswer)
    (st : SessionState) (d : IRDict) (h : List.lookup STATE_KEY st = some d) :
    handle_al_response m svc st = manage_al m svc st (InternalResponse.from_dict d) := by
  unfold handle_al_response store_get
  rw [h]

theorem handle_eq_of_lookup_none (m : AccountLinkingModule) (svc : String → HttpAnswer)
    (st : SessionState) (h : List.lookup STATE_KEY st = none) :
    handle_al_response m svc st = (Except.error FlowError.keyError, st) := by
  unfold handle_al_response store_get
  rw [h]

theorem manage_al_disabled_eq (m : AccountLinkingModule) (svc : String → HttpAnswer)
    (st : SessionState) (ir : InternalResponse) (h : m.enabled = false) :
    manage_al m svc st ir = (Except.ok (ALResult.callbackInvoked ir), st) := by
  simp [manage_al, h]

theorem manage_al_200_eq (m : AccountLinkingModule) (svc : String → HttpAnswer)
    (st : SessionState) (ir : InternalResponse) (U : String)
    (hen : m.enabled = true)
    (hsvc : svc (outbound_request m ir.auth_info.issuer ir.get_user_id) = HttpAnswer.resp 200 U) :
    manage_al m svc st ir =
      (Except.ok (ALResult.callbackInvoked (ir.set_user_id U)), clear_pending st) := by
  unfold manage_al get_uuid
  rw [hsvc, hen]
  rfl

theorem manage_al_404_eq (m : AccountLinkingModule) (svc : String → HttpAnswer)
    (st : SessionState) (ir : InternalResponse) (T : String)
    (hen : m.enabled = true)
    (hsvc : svc (outbound_request m ir.auth_info.issuer ir.get_user_id) = HttpAnswer.resp 404 T) :
    manage_al m svc st ir =
      (Except.ok (ALResult.redirect (m.redirect_url ++ "/" ++ T)),
       store_add st STATE_KEY ir.to_dict) := by
  unfold manage_al get_uuid
  rw [hsvc, hen]
  rfl

theorem manage_al_conn_eq (m : AccountLinkingModule) (svc : String → HttpAnswer)
    (st : SessionState) (ir : InternalResponse)
    (hen : m.enabled = true)
    (hsvc : svc (outbound_request m ir.auth_info.issuer ir.get_user_id) = HttpAnswer.connError) :
    manage_al m svc st ir =
      (Except.error (FlowError.satosaAuthError conn_error_msg), st) := by
  unfold manage_al get_uuid
  rw [hsvc, hen]
  rfl

theorem manage_al_badstatus_eq (m : AccountLinkingModule) (svc : String → HttpAnswer)
    (st : SessionState) (ir : InternalResponse) (s : Nat) (t : String)
    (hen : m.enabled = true) (h200 : s ≠ 200) (h404 : s ≠ 404)
    (hsvc : svc (outbound_request m ir.auth_info.issuer ir.get_user_id) = HttpAnswer.resp s t) :
    manage_al m svc st ir =
      (Except.error (FlowError.satosaAuthError (status_code_msg s)), st) := by
  have hg : get_uuid m svc ir.auth_info.issuer ir.get_user_id =
      Except.error (FlowError.satosaAuthError (status_code_msg s)) := by
    unfold get_uuid
    rw [hsvc]
    show (if s ∈ ([200, 404] : List Nat) then Except.ok (s, t)
        else Except.error (FlowError.satosaAuthError (status_code_msg s))) =
      Except.error (FlowError.satosaAuthError (status_code_msg s))
    rw [if_neg (by simp [h200, h404] : ¬ (s ∈ ([200, 404] : List Nat)))]
  unfold manage_al
  rw [hen, hg]
  rfl

theorem frame_manage_al (m : AccountLinkingModule) (svc : String → HttpAnswer)
    (st : SessionState) (ir : InternalResponse) :
    ∀ ir2 st2, manage_al m svc st ir = (Except.ok (ALResult.callbackInvoked ir2), st2) →
      ir2.auth_info = ir.auth_info ∧ ir2.attributes = ir.attributes := by
  intro ir2 st2 h
  by_cases hen : m.enabled = false
  · rw [manage_al_disabled_eq m svc st ir hen] at h
    injection h with h1 h2
    injection h1 with h1
    injection h1 with h1
    rw [← h1]
    exact ⟨rfl, rfl⟩
  · replace hen : m.enabled = true := by
      revert hen
      cases m.enabled <;> simp
    cases ha : svc (outbound_request m ir.auth_info.issuer ir.get_user_id) with
    | connError =>
      rw [manage_al_conn_eq m svc st ir hen ha] at h
      exact absurd h (by simp)
    | resp s t =>
      by_cases h200 : s = 200
      · subst h200
        rw [manage_al_200_eq m svc st ir t hen ha] at h
        injection h with h1 h2
        injection h1 with h1
        injection h1 with h1
        rw [← h1]
        exact ⟨rfl, rfl⟩
      · by_cases h404 : s = 404
        · subst h404
          rw [manage_al_404_eq m svc st ir t hen ha] at h
          exact absurd h (by simp)
        · rw [manage_al_badstatus_eq m svc st ir s t hen h200 h404 ha] at h
          exact absurd h (by simp)

theorem manage_al_failure_eq (m : AccountLinkingModule) (svc : String → HttpAnswer)
    (st : SessionState) (ir : InternalResponse)
    (hen : m.enabled = true)
    (hfail : svc (outbound_request m ir.auth_info.issuer ir.get_user_id) = HttpAnswer.connError ∨
      ∃ s t, svc (outbound_request m ir.auth_info.issuer ir.get_user_id) = HttpAnswer.resp s t ∧
        s ≠ 200 ∧ s ≠ 404) :
    manage_al m svc st ir =
      (Except.error (FlowError.satosaAuthError
        (failure_msg (svc (outbound_request m ir.auth_info.issuer ir.get_user_id)))), st) := by
  rcases hfail with h | ⟨s, t, h, h200, h404⟩
  · rw [h]
    exact manage_al_conn_eq m svc st ir hen h
  · rw [h]
    exact manage_al_badstatus_eq m svc st ir s t hen h200 h404 h

/-! ### Sample inputs (the example of section 8 of the design document) -/

/-- The sample identity: issuer `https://idp.example`, subjectId `abc123`. -/
def ir0 : InternalResponse :=
  { auth_info := { issuer := "https://idp.example" }
    user_id := "abc123"
    attributes := [("givenName", ["Alice"])] }

/-- The sample identity, serialized. -/
def d0 : IRDict := ir0.to_dict

/-- A sample enabled module. -/
def m0 : AccountLinkingModule :=
  { enabled := true
    proxy_base := "https://proxy.example"
    api_url := "https://al.example/api"
    redirect_url := "https://link.example/approve"
    sign_key := "k0" }

/-- A session state holding the sample identity under STATE_KEY. -/
def st0 : SessionState := [(STATE_KEY, d0)]

/-- A configuration with no ACCOUNT_LINKING section: linking disabled. -/
def cfg_disabled : SATOSAConfig :=
  { base := "https://proxy.example", account_linking := none }

/-- A service that always answers 200 with the canonical id `acct-9f3`. -/
def svc200 : String → HttpAnswer := fun _ => HttpAnswer.resp 200 "acct-9f3"

/-- A service that always answers 404 with the ticket `ticket-77`. -/
def svc404 : String → HttpAnswer := fun _ => HttpAnswer.resp 404 "ticket-77"

/-- A service that always answers 500. -/
def svc500 : String → HttpAnswer := fun _ => HttpAnswer.resp 500 "server error"

/-- An unreachable service: every request raises a connection error. -/
def svcDown : String → HttpAnswer := fun _ => HttpAnswer.connError

/-! ### The claims -/

/-- Claim C1: if the external service answers 200 with body `U`,
`manage_al` replaces the identity's user id with `U`, removes the
pending-link state under `STATE_KEY` (via the guarded `state.remove`,
which tolerates absence), and invokes the continuation callback with the
updated identity; no pending state remains under `STATE_KEY` afterwards. -/
theorem C1_manage_al_linked (m : AccountLinkingModule) (svc : String → HttpAnswer)
    (st : SessionState) (ir : InternalResponse) (U : String)
    (hen : m.enabled = true)
    (hsvc : svc (outbound_request m ir.auth_info.issuer ir.get_user_id) = HttpAnswer.resp 200 U) :
    manage_al m svc st ir =
      (Except.ok (ALResult.callbackInvoked (ir.set_user_id U)), clear_pending st) ∧
    List.lookup STATE_KEY (clear_pending st) = none :=
  ⟨manage_al_200_eq m svc st ir U hen hsvc, lookup_clear_pending st⟩

/-- Witness for C1 at the sample inputs. -/
theorem C1_linked_witness :
    manage_al m0 svc200 st0 ir0 =
      (Except.ok (ALResult.callbackInvoked (ir0.set_user_id "acct-9f3")), clear_pending st0) ∧
    List.lookup STATE_KEY (clear_pending st0) = none :=
  C1_manage_al_linked m0 svc200 st0 ir0 "acct-9f3" rfl rfl

/-- Claim C2: if the external service answers 404 with body `T` (the
ticket), `manage_al` saves the serialized pre-query identity under
`STATE_KEY` (overwriting any prior value) and returns a redirect to
`{redirect_url}/T`; the session's pending state afterwards equals the
identity as it was before the query. -/
theorem C2_manage_al_pending_redirect (m : AccountLinkingModule) (svc : String → HttpAnswer)
    (st : SessionState) (ir : InternalResponse) (T : String)
    (hen : m.enabled = true)
    (hsvc : svc (outbound_request m ir.auth_info.issuer ir.get_user_id) = HttpAnswer.resp 404 T) :
    manage_al m svc st ir =
      (Except.ok (ALResult.redirect (m.redirect_url ++ "/" ++ T)),
       store_add st STATE_KEY ir.to_dict) ∧
    List.lookup STATE_KEY (store_add st STATE_KEY ir.to_dict) = some ir.to_dict ∧
    InternalResponse.from_dict ir.to_dict = ir :=
  ⟨manage_al_404_eq m svc st ir T hen hsvc,
   lookup_store_add_self st STATE_KEY ir.to_dict,
   from_dict_to_dict ir⟩

/-- Witness for C2 at the sample inputs. -/
theorem C2_pending_witness :
    manage_al m0 svc404 ([] : SessionState) ir0 =
      (Except.ok (ALResult.redirect (m0.redirect_url ++ "/" ++ "ticket-77")),
       store_add ([] : SessionState) STATE_KEY ir0.to_dict) ∧
    List.lookup STATE_KEY (store_add ([] : SessionState) STATE_KEY ir0.to_dict) =
      some ir0.to_dict ∧
    InternalResponse.from_dict ir0.to_dict = ir0 :=
  C2_manage_al_pending_redirect m0 svc404 ([] : SessionState) ir0 "ticket-77" rfl rfl

/-- Claim C3, counterexample: the callback handler does NOT remove the
pending state as part of the load. With the pending identity stored and a
500 answer from the service, the handler raises the authentication error
while the entry is still under `STATE_KEY` (had the load removed it, the
state afterwards would hold nothing, since the error path writes
nothing). And with no pending state at all, the store lookup fails with a
KeyError, not with a dedicated no-pending-link-state fatal error. -/
theorem C3_load_clear_counterexample :
    List.lookup STATE_KEY (handle_al_response m0 svc500 st0).2 = some d0 ∧
    handle_al_response m0 svc500 ([] : SessionState) =
      (Except.error FlowError.keyError, ([] : SessionState)) :=
  ⟨rfl, rfl⟩

/-- Claim C3 (amended): when the callback endpoint is invoked, the
handler reads the pending-link state under `STATE_KEY` without removing
it and delegates to `manage_al` on the reconstructed identity with the
session state unchanged; when no pending state is present, the session
store lookup raises a KeyError (which propagates unhandled) rather than
a dedicated no-pending-link-state authentication error. -/
theorem C3_handle_reads_without_clearing (m : AccountLinkingModule)
    (svc : String → HttpAnswer) (st : SessionState) :
    (∀ d, List.lookup STATE_KEY st = some d →
      handle_al_response m svc st = manage_al m svc st (InternalResponse.from_dict d)) ∧
    (List.lookup STATE_KEY st = none →
      handle_al_response m svc st = (Except.error FlowError.keyError, st)) :=
  ⟨fun d hd => handle_eq_of_lookup m svc st d hd,
   fun h => handle_eq_of_lookup_none m svc st h⟩

/-- Witness for the amended C3 at the sample inputs. -/
theorem C3_handle_witness :
    handle_al_response m0 svc500 st0 =
      manage_al m0 svc500 st0 (InternalResponse.from_dict d0) :=
  (C3_handle_reads_without_clearing m0 svc500 st0).1 d0 rfl

/-- Claim C4: if the service is unreachable or answers with a status
other than 200 and 404, `manage_al` raises `SATOSAAuthenticationError`
carrying the originating reason (the connection message, or the message
naming the status code), and the session state is exactly as before: no
pending-link state is written by the attempt. -/
theorem C4_service_failure_fatal (m : AccountLinkingModule) (svc : String → HttpAnswer)
    (st : SessionState) (ir : InternalResponse)
    (hen : m.enabled = true)
    (hfail : svc (outbound_request m ir.auth_info.issuer ir.get_user_id) = HttpAnswer.connError ∨
      ∃ s t, svc (outbound_request m ir.auth_info.issuer ir.get_user_id) = HttpAnswer.resp s t ∧
        s ≠ 200 ∧ s ≠ 404) :
    manage_al m svc st ir =
      (Except.error (FlowError.satosaAuthError
        (failure_msg (svc (outbound_request m ir.auth_info.issuer ir.get_user_id)))), st) :=
  manage_al_failure_eq m svc st ir hen hfail

/-- Witness for C4 at the sample inputs, with an unreachable service. -/
theorem C4_failure_witness :
    manage_al m0 svcDown st0 ir0 =
      (Except.error (FlowError.satosaAuthError conn_error_msg), st0) :=
  C4_service_failure_fatal m0 svcDown st0 ir0 rfl (Or.inl rfl)

/-- Claim C5: when linking is disabled by the configuration, `manage_al`
hands the identity to the continuation callback exactly as received,
changes no session state, and performs no network call (the outcome does
not depend on the service at all). -/
theorem C5_disabled_passthrough (config : SATOSAConfig) (svc svc2 : String → HttpAnswer)
    (st : SessionState) (ir : InternalResponse)
    (hdis : (AccountLinkingModule.ofConfig config).enabled = false) :
    manage_al (AccountLinkingModule.ofConfig config) svc st ir =
      (Except.ok (ALResult.callbackInvoked ir), st) ∧
    manage_al (AccountLinkingModule.ofConfig config) svc st ir =
      manage_al (AccountLinkingModule.ofConfig config) svc2 st ir :=
  ⟨manage_al_disabled_eq _ svc st ir hdis,
   by rw [manage_al_disabled_eq _ svc st ir hdis, manage_al_disabled_eq _ svc2 st ir hdis]⟩

/-- Witness for C5: no ACCOUNT_LINKING config section, two services that
differ everywhere. -/
theorem C5_disabled_witness :
    manage_al (AccountLinkingModule.ofConfig cfg_disabled) svc200 st0 ir0 =
      (Except.ok (ALResult.callbackInvoked ir0), st0) ∧
    manage_al (AccountLinkingModule.ofConfig cfg_disabled) svc200 st0 ir0 =
      manage_al (AccountLinkingModule.ofConfig cfg_disabled) svcDown st0 ir0 :=
  C5_disabled_passthrough cfg_disabled svc200 svcDown st0 ir0 rfl

/-- Claim C6: the outbound request built by `_get_uuid` is exactly the
one of section 6 of the design document: a GET to
`{api_url}/get_id?jwt={J}` with `J` the compact-signed JWS over the JSON
object `idp, id, redirect_endpoint =
{proxy_base}/account_linking/handle_account_linking`. -/
theorem C6_outbound_request_matches_spec (m : AccountLinkingModule) (issuer subjectId : String) :
    outbound_request m issuer subjectId = spec_outbound_request m issuer subjectId := by
  unfold outbound_request spec_outbound_request endpoint_path
  rw [String.append_assoc m.proxy_base "/account_linking" "/handle_account_linking"]
  rfl

/-- Claim C7: resumption equivalence. Deserializing a persisted identity
recovers it, the resumption query is the same request the orchestrator
issues directly for that identity, and when that query answers 200 with
body `U`, the callback-endpoint run from the saved state and the direct
run produce the same outcome and the same final session state: callback
invoked with the user id replaced by `U`, pending state cleared. -/
theorem C7_resumption_equivalence (m : AccountLinkingModule) (svc : String → HttpAnswer)
    (st : SessionState) (ir : InternalResponse) (U : String)
    (hen : m.enabled = true)
    (hsvc : svc (outbound_request m ir.auth_info.issuer ir.get_user_id) = HttpAnswer.resp 200 U) :
    InternalResponse.from_dict ir.to_dict = ir ∧
    outbound_request m (InternalResponse.from_dict ir.to_dict).auth_info.issuer
        (InternalResponse.from_dict ir.to_dict).get_user_id =
      outbound_request m ir.auth_info.issuer ir.get_user_id ∧
    handle_al_response m svc (store_add st STATE_KEY ir.to_dict) = manage_al m svc st ir ∧
    manage_al m svc st ir =
      (Except.ok (ALResult.callbackInvoked (ir.set_user_id U)), eraseKey st STATE_KEY) := by
  refine ⟨from_dict_to_dict ir, rfl, ?_, ?_⟩
  · rw [handle_eq_of_lookup m svc _ ir.to_dict (lookup_store_add_self st STATE_KEY ir.to_dict)]
    rw [from_dict_to_dict]
    rw [manage_al_200_eq m svc (store_add st STATE_KEY ir.to_dict) ir U hen hsvc]
    rw [manage_al_200_eq m svc st ir U hen hsvc]
    rw [clear_pending_eq_eraseKey, clear_pending_eq_eraseKey, eraseKey_store_add_self]
  · rw [manage_al_200_eq m svc st ir U hen hsvc, clear_pending_eq_eraseKey]

/-- Witness for C7 at the sample inputs. -/
theorem C7_resumption_witness :
    InternalResponse.from_dict ir0.to_dict = ir0 ∧
    outbound_request m0 (InternalResponse.from_dict ir0.to_dict).auth_info.issuer
        (InternalResponse.from_dict ir0.to_dict).get_user_id =
      outbound_request m0 ir0.auth_info.issuer ir0.get_user_id ∧
    handle_al_response m0 svc200 (store_add ([] : SessionState) STATE_KEY ir0.to_dict) =
      manage_al m0 svc200 ([] : SessionState) ir0 ∧
    manage_al m0 svc200 ([] : SessionState) ir0 =
      (Except.ok (ALResult.callbackInvoked (ir0.set_user_id "acct-9f3")),
       eraseKey ([] : SessionState) STATE_KEY) :=
  C7_resumption_equivalence m0 svc200 ([] : SessionState) ir0 "acct-9f3" rfl rfl

/-- Claim C8: the identity handed to the continuation callback differs
from the identity entering the flow at most in its user id; its
authentication info (issuer) and its attribute mapping are unchanged,
both on the direct path and on the resumption path (where the entering
identity is the one reconstructed from the stored state). -/
theorem C8_identity_frame (m : AccountLinkingModule) (svc : String → HttpAnswer)
    (st : SessionState) (ir : InternalResponse) :
    (∀ ir2 st2, manage_al m svc st ir = (Except.ok (ALResult.callbackInvoked ir2), st2) →
      ir2.auth_info = ir.auth_info ∧ ir2.attributes = ir.attributes) ∧
    (∀ d ir2 st2, List.lookup STATE_KEY st = some d →
      handle_al_response m svc st = (Except.ok (ALResult.callbackInvoked ir2), st2) →
      ir2.auth_info = (InternalResponse.from_dict d).auth_info ∧
      ir2.attributes = (InternalResponse.from_dict d).attributes) := by
  constructor
  · exact frame_manage_al m svc st ir
  · intro d ir2 st2 hd h
    rw [handle_eq_of_lookup m svc st d hd] at h
    exact frame_manage_al m svc st (InternalResponse.from_dict d) ir2 st2 h

/-- Witness for C8: the 200-path callback identity keeps auth info and
attributes. -/
theorem C8_frame_witness :
    (ir0.set_user_id "acct-9f3").auth_info = ir0.auth_info ∧
    (ir0.set_user_id "acct-9f3").attributes = ir0.attributes :=
  (C8_identity_frame m0 svc200 st0 ir0).1 (ir0.set_user_id "acct-9f3") (clear_pending st0) rfl

/-- Claim C9: clearing an absent pending state is not an error. When the
session holds nothing under `STATE_KEY`, the underlying `state.remove`
does raise a KeyError, but the guarded clear of the Linked path swallows
it and completes, leaving the state as it was; the rest of the 200-path
behaviour is exactly as in the general case. -/
theorem C9_clear_absent_tolerated (m : AccountLinkingModule) (svc : String → HttpAnswer)
    (st : SessionState) (ir : InternalResponse) (U : String)
    (hen : m.enabled = true)
    (habsent : List.lookup STATE_KEY st = none)
    (hsvc : svc (outbound_request m ir.auth_info.issuer ir.get_user_id) = HttpAnswer.resp 200 U) :
    store_remove st STATE_KEY = Except.error () ∧
    clear_pending st = st ∧
    manage_al m svc st ir = (Except.ok (ALResult.callbackInvoked (ir.set_user_id U)), st) := by
  have h1 : store_remove st STATE_KEY = Except.error () := by
    unfold store_remove
    rw [habsent]
  have h2 : clear_pending st = st := by
    unfold clear_pending
    rw [h1]
  exact ⟨h1, h2, by rw [manage_al_200_eq m svc st ir U hen hsvc, h2]⟩

/-- Witness for C9 on the empty session state. -/
theorem C9_clear_absent_witness :
    store_remove ([] : SessionState) STATE_KEY = Except.error () ∧
    clear_pending ([] : SessionState) = ([] : SessionState) ∧
    manage_al m0 svc200 ([] : SessionState) ir0 =
      (Except.ok (ALResult.callbackInvoked (ir0.set_user_id "acct-9f3")), ([] : SessionState)) :=
  C9_clear_absent_tolerated m0 svc200 ([] : SessionState) ir0 "acct-9f3" rfl rfl rfl

/-- Claim C10: on the resumption path, if the re-issued query fails
(unreachable service or unexpected status), the handler raises the
authentication error and the previously saved pending-link state is
still in the session store unchanged: the handler read it without
removing it and the error came before any later state modification. -/
theorem C10_resumption_failure_preserves_state (m : AccountLinkingModule)
    (svc : String → HttpAnswer) (st : SessionState) (d : IRDict)
    (hen : m.enabled = true)
    (hd : List.lookup STATE_KEY st = some d)
    (hfail : svc (outbound_request m (InternalResponse.from_dict d).auth_info.issuer
        (InternalResponse.from_dict d).get_user_id) = HttpAnswer.connError ∨
      ∃ s t, svc (outbound_request m (InternalResponse.from_dict d).auth_info.issuer
        (InternalResponse.from_dict d).get_user_id) = HttpAnswer.resp s t ∧
        s ≠ 200 ∧ s ≠ 404) :
    handle_al_response m svc st =
      (Except.error (FlowError.satosaAuthError
        (failure_msg (svc (outbound_request m (InternalResponse.from_dict d).auth_info.issuer
          (InternalResponse.from_dict d).get_user_id)))), st) ∧
    List.lookup STATE_KEY (handle_al_response m svc st).2 = some d := by
  have h := manage_al_failure_eq m svc st (InternalResponse.from_dict d) hen hfail
  constructor
  · rw [handle_eq_of_lookup m svc st d hd]
    exact h
  · rw [handle_eq_of_lookup m svc st d hd, h]
    exact hd

/-- Witness for C10 at the sample inputs, with an unreachable service. -/
theorem C10_failure_witness :
    handle_al_response m0 svcDown st0 =
      (Except.error (FlowError.satosaAuthError conn_error_msg), st0) ∧
    List.lookup STATE_KEY (handle_al_response m0 svcDown st0).2 = some d0 :=
  C10_resumption_failure_preserves_state m0 svcDown st0 d0 rfl rfl (Or.inl rfl)

end AccountLinking
